import Mathlib

/-!
# Verification of the todo-backend task service

A shallow embedding of the core of the `todo-backend` repository:

* `api.py` — the multi-user JWT-authenticated task API backed by a remote
  relational store.  The store is modelled as a list of rows; each endpoint
  becomes a pure function from the store (and the authenticated user's id)
  to a result together with the successor store.
* `main_db.py` — the embedded-SQLite CLI variant (status-enum model).
* `main_dict.py` — the in-memory-dictionary CLI variant (full state model).

Timestamps are modelled as integers (seconds); the relational row sets are
modelled as lists in insertion order, with the primary-key uniqueness of the
`id` column carried as an explicit `Nodup` hypothesis where a proof needs it.
-/

namespace TodoBackend

/-! ## Python string primitives

`str.strip()` and `str.lower()` modelled on the character list so that the
kernel can evaluate them (the built-in `String.trim`/`String.toLower` are
byte-position based and do not reduce). -/

/-- Model of Python `str.strip()`: drop whitespace from both ends. -/
def pyStrip (s : String) : String :=
  ⟨((s.data.dropWhile Char.isWhitespace).reverse.dropWhile Char.isWhitespace).reverse⟩

/-- Model of Python `str.lower()` (ASCII case folding). -/
def pyLower (s : String) : String :=
  ⟨s.data.map Char.toLower⟩

/-! ## Data model of `api.py` -/

/-- A row of the `tasks` relation (the shape returned by `TaskRead`):
`id`, `user_id` (owner), the task payload, and the two timestamps. -/
structure Task where
  id : Nat
  user_id : Nat
  name : String
  description : Option String
  priority : Int
  status : String
  created_on : Int
  last_modified : Int
deriving Repr, DecidableEq

/-- The `tasks` relation, in insertion order. -/
abbrev Store := List Task

/-- A row of the `users` relation: `id`, `username`, `password_hash`. -/
structure UserRow where
  id : Nat
  username : String
  password_hash : String
deriving Repr, DecidableEq

/-- The `TASK_STATUS` literal of `api.py`: `"done" | "pending"`. -/
def apiStatusOK (s : String) : Bool :=
  s == "done" || s == "pending"

/-- The status values accepted by the `main_db.py` CLI backend: its SQLite
schema constrains `status` with `CHECK(status IN ('complete','incomplete'))`,
and its input loop accepts exactly these two strings. -/
def dbStatusOK (s : String) : Bool :=
  s == "complete" || s == "incomplete"

/-- The status values accepted by the `main_dict.py` CLI backend: its input
loop accepts a status only if it is in `["complete", "incomplete"]`. -/
def dictStatusOK (s : String) : Bool :=
  s == "complete" || s == "incomplete"

/-- Request body of `POST /tasks` (`TaskCreate`, inheriting `TaskBase`). -/
structure TaskCreate where
  name : String
  description : Option String
  priority : Int
  status : String
deriving Repr, DecidableEq

/-- Pydantic validation of `TaskBase`/`TaskCreate`: `name` has
`min_length=1, max_length=100` (checked on the raw, untrimmed string),
`description` is optional with `max_length=500`, `priority` has `ge=1`,
and `status` must be a `TASK_STATUS` literal. -/
def TaskCreate.valid (t : TaskCreate) : Bool :=
  decide (1 ≤ t.name.length) && decide (t.name.length ≤ 100) &&
    (match t.description with
      | none => true
      | some d => decide (d.length ≤ 500)) &&
    decide (1 ≤ t.priority) && apiStatusOK t.status

/-- Request body of `PATCH /tasks/{id}` (`TaskUpdate`): all four fields
required, `description` a mandatory string here. -/
structure TaskUpdate where
  name : String
  description : String
  priority : Int
  status : String
deriving Repr, DecidableEq

/-! ## Task endpoints of `api.py`

Every task query carries both `.eq("id", task_id)` and
`.eq("user_id", current_user["id"])`; `taskMatches` is that conjunction. -/

/-- The row filter used by `get_task`/`update_task`/`delete_task`:
`id == task_id` and `user_id == uid`. -/
def taskMatches (task_id uid : Nat) (t : Task) : Bool :=
  t.id == task_id && t.user_id == uid

/-- `POST /tasks` (`create_task`): inserts a row with `name` stripped, the
other payload fields verbatim, `created_on = last_modified = now`, and
`user_id` the authenticated user's id.  The fresh primary key assigned by
the database is modelled as the explicit `nextId`.  Returns the inserted
row and the successor store. -/
def create_task (store : Store) (nextId : Nat) (uid : Nat) (task : TaskCreate)
    (now : Int) : Task × Store :=
  let row : Task :=
    { id := nextId
      user_id := uid
      name := pyStrip task.name
      description := task.description
      priority := task.priority
      status := task.status
      created_on := now
      last_modified := now }
  (row, store ++ [row])

/-- `GET /tasks/{id}` (`get_task`): select rows matching id and owner,
return the first, or `none` (HTTP 404 "Task not found") if there is none. -/
def get_task (store : Store) (uid task_id : Nat) : Option Task :=
  (store.filter (taskMatches task_id uid)).head?

/-- The row produced by `update_task`'s `.update({...})` payload: `name`,
`description`, `priority`, `status` from the body (the name is not
stripped here), `last_modified := now`; `id`, `user_id` and `created_on`
are untouched columns. -/
def applyUpdate (body : TaskUpdate) (now : Int) (t : Task) : Task :=
  { t with
      name := body.name
      description := some body.description
      priority := body.priority
      status := body.status
      last_modified := now }

/-- `PATCH /tasks/{id}` (`update_task`): first an existence check scoped by
id and owner, returning `none` (404) with the store untouched when it
fails; otherwise update every matching row and return the first updated
row together with the successor store. -/
def update_task (store : Store) (uid task_id : Nat) (body : TaskUpdate)
    (now : Int) : Option Task × Store :=
  if (store.filter (taskMatches task_id uid)).isEmpty then
    (none, store)
  else
    let store' := store.map fun t =>
      if taskMatches task_id uid t then applyUpdate body now t else t
    ((store'.filter (taskMatches task_id uid)).head?, store')

/-- `DELETE /tasks/{id}` (`delete_task`): existence check scoped by id and
owner, returning `none` (404) with the store untouched when it fails;
otherwise delete the matching rows (HTTP 204, modelled `some ()`). -/
def delete_task (store : Store) (uid task_id : Nat) : Option Unit × Store :=
  if (store.filter (taskMatches task_id uid)).isEmpty then
    (none, store)
  else
    (some (), store.filter fun t => !taskMatches task_id uid t)

/-- The `allowed_sort_cols` set of `get_tasks`. -/
def allowedSortCols : List String :=
  ["priority", "created_on", "last_modified"]

/-- The sort column of a task row, as an integer key. -/
def sortKey (col : String) (t : Task) : Int :=
  if col == "created_on" then t.created_on
  else if col == "last_modified" then t.last_modified
  else t.priority

/-- Insert a task into a list sorted by `le` (helper for `sortTasks`). -/
def insertSorted (le : Task → Task → Bool) (a : Task) : List Task → List Task
  | [] => [a]
  | b :: bs => if le a b then a :: b :: bs else b :: insertSorted le a bs

/-- Deterministic sorting of the selected rows, modelling the backend's
`ORDER BY` on the chosen column. -/
def sortTasks (le : Task → Task → Bool) : List Task → List Task
  | [] => []
  | a :: as => insertSorted le a (sortTasks le as)

/-- `GET /tasks` (`get_tasks`): a `sort_by` outside `allowed_sort_cols`
falls back to `"priority"`; `order` is lowercased and compared with
`"desc"` (so exactly `"desc"`, case-insensitively, sorts descending and
every other value sorts ascending); a `status` filter is applied only when
it is `"done"` or `"pending"`; rows are always scoped to the caller by
`user_id`. -/
def get_tasks (store : Store) (uid : Nat) (sort_by : String) (order : String)
    (status : Option String) : List Task :=
  let sb := if allowedSortCols.contains sort_by then sort_by else "priority"
  let descend := pyLower order == "desc"
  let rows := store.filter fun t => t.user_id == uid
  let rows :=
    match status with
    | some s => if s == "done" || s == "pending" then
        rows.filter fun t => t.status == s
      else rows
    | none => rows
  if descend then sortTasks (fun a b => decide (sortKey sb b ≤ sortKey sb a)) rows
  else sortTasks (fun a b => decide (sortKey sb a ≤ sortKey sb b)) rows

/-! ## Registration (`register` in `api.py`) -/

/-- Outcome of `POST /register`. -/
inductive RegResult where
  | ok
  | duplicateUsername
deriving Repr, DecidableEq

/-- `POST /register` (`register`): query the `users` relation for the
username; if a row exists, fail with HTTP 400 "Username already exists"
(`duplicateUsername`) leaving the relation untouched; otherwise insert the
new row (with the store-assigned `nextId`). -/
def register (users : List UserRow) (nextId : Nat) (username : String)
    (password_hash : String) : RegResult × List UserRow :=
  if users.any (fun u => u.username == username) then
    (.duplicateUsername, users)
  else
    (.ok, users ++ [{ id := nextId, username := username,
                      password_hash := password_hash }])

/-! ## Password hashing (`verify_password` / `get_password_hash`)

Modelled from the spec: the hashing itself is done by the external
`passlib` `CryptContext` with bcrypt, which is a third-party dependency and
not part of this repository; `api.py` only wraps it.  Following the spec's
contract — `hash` embeds a random salt, and `verify(plaintext, blob)` is
true iff hashing the plaintext with the embedded salt reproduces the stored
blob — the digest is idealised as a collision-free function of the salt and
the plaintext. -/

/-- A stored hash blob: the embedded salt and the digest. -/
structure HashBlob where
  salt : Nat
  digest : Nat × List Char
deriving Repr, DecidableEq

/-- The idealised salted digest (collision-free by construction). -/
def bcryptDigest (salt : Nat) (password : String) : Nat × List Char :=
  (salt, password.data)

/-- `get_password_hash`: hash the plaintext under a (random) salt. -/
def get_password_hash (salt : Nat) (password : String) : HashBlob :=
  { salt := salt, digest := bcryptDigest salt password }

/-- `verify_password`: re-digest the candidate under the blob's embedded
salt and compare with the stored digest. -/
def verify_password (plain_password : String) (hashed_password : HashBlob) : Bool :=
  bcryptDigest hashed_password.salt plain_password == hashed_password.digest

/-! ## JWT issuance and verification (`create_access_token` / `get_current_user`)

PyJWT's `encode` always signs with the process secret; foreign or tampered
tokens are modelled by `sigOk = false`.  `decode` verifies the signature
first (`InvalidTokenError` when it fails) and then the `exp` claim
(`ExpiredSignatureError` when `exp` is in the past). -/

/-- The claims carried by a token: the optional `sub` and the `exp`
timestamp. -/
structure TokenData where
  sub : Option String
  exp : Int
deriving Repr, DecidableEq

/-- An encoded token: its payload plus whether its signature verifies
under the process secret. -/
structure EncodedToken where
  payload : TokenData
  sigOk : Bool
deriving Repr, DecidableEq

/-- `ACCESS_TOKEN_EXPIRE_MINUTES = 15`. -/
def ACCESS_TOKEN_EXPIRE_MINUTES : Int := 15

/-- `create_access_token`: copy the claims (here the `sub` entry), set
`exp := now + (expires_delta or 15 minutes)` and sign with the process
secret.  Times are in seconds. -/
def create_access_token (sub : Option String) (expires_delta : Option Int)
    (now : Int) : EncodedToken :=
  { payload := { sub := sub,
                 exp := now + expires_delta.getD (ACCESS_TOKEN_EXPIRE_MINUTES * 60) }
    sigOk := true }

/-- Outcome kinds of token verification inside `jwt.decode`. -/
inductive VerifyErr where
  | malformed
  | expired
deriving Repr, DecidableEq

/-- PyJWT `jwt.decode`: invalid signature raises `InvalidTokenError`
(malformed); an `exp` claim in the past raises `ExpiredSignatureError`. -/
def jwtDecode (tok : EncodedToken) (now : Int) : Except VerifyErr TokenData :=
  if !tok.sigOk then .error .malformed
  else if tok.payload.exp < now then .error .expired
  else .ok tok.payload

/-- Failure kinds surfaced by `get_current_user` (all HTTP 401). -/
inductive AuthErr where
  | malformed
  | expired
  | missingSubject
  | unknownSubject
deriving Repr, DecidableEq

/-- `get_current_user`: decode the token (signature, then expiry); a
missing or falsy (empty) `sub` claim is rejected; otherwise the subject is
looked up in the `users` relation, failing when absent. -/
def get_current_user (users : List UserRow) (tok : EncodedToken)
    (now : Int) : Except AuthErr UserRow :=
  match jwtDecode tok now with
  | .error .malformed => .error .malformed
  | .error .expired => .error .expired
  | .ok payload =>
    match payload.sub with
    | none => .error .missingSubject
    | some name =>
      if name.isEmpty then .error .missingSubject
      else
        match users.find? (fun u => u.username == name) with
        | none => .error .unknownSubject
        | some u => .ok u

/-! ## The in-memory dictionary backend (`main_dict.py`)

The database is `dict[int, dict]`; modelled as an association list in
insertion order (Python dicts preserve insertion order).  -/

/-- A task of the dictionary backend: `Name`, `Description`, `Priority`,
`Status`. -/
structure DTask where
  name : String
  description : String
  priority : Int
  status : String
deriving Repr, DecidableEq

/-- The dictionary database, in insertion order. -/
abbrev DictDB := List (Nat × DTask)

/-- `max(database.keys())`, 0 on the empty dictionary (Python would raise
there; `dictCreate` only evaluates it on nonempty dictionaries). -/
def dictMaxKey (db : DictDB) : Nat :=
  db.foldr (fun kv acc => max kv.fst acc) 0

/-- Python `database[index] = task`: replace the value when the key is
present, otherwise append the new binding. -/
def dictInsert (db : DictDB) (k : Nat) (t : DTask) : DictDB :=
  if db.any (fun kv => kv.fst == k) then
    db.map fun kv => if kv.fst == k then (k, t) else kv
  else
    db ++ [(k, t)]

/-- `create` of `main_dict.py`: `index = max(database.keys()) + 1` when the
dictionary is nonempty, else `1`; then `database[index] = task`. -/
def dictCreate (db : DictDB) (t : DTask) : DictDB :=
  let index := if db.isEmpty then 1 else dictMaxKey db + 1
  dictInsert db index t

/-- `task_status` of `main_dict.py`: no-op when the index is absent or the
status is unchanged; otherwise overwrite the task's `Status`. -/
def dictTaskStatus (db : DictDB) (k : Nat) (status : String) : DictDB :=
  if !db.any (fun kv => kv.fst == k) then db
  else
    match db.find? (fun kv => kv.fst == k) with
    | none => db
    | some kv =>
      if kv.snd.status == status then db
      else db.map fun kv => if kv.fst == k then (k, { kv.snd with status := status }) else kv

/-- `delete` of `main_dict.py`: no-op when the index is absent; otherwise
the user is asked to confirm and the entry is removed only on "yes"
(`confirm = true`). -/
def dictDelete (db : DictDB) (k : Nat) (confirm : Bool) : DictDB :=
  if !db.any (fun kv => kv.fst == k) then db
  else if confirm then db.filter fun kv => kv.fst != k
  else db

/-- The states of the dictionary backend reachable from the empty database
of `main` through its menu operations. -/
inductive DictReachable : DictDB → Prop where
  | empty : DictReachable []
  | create {db : DictDB} (t : DTask) : DictReachable db → DictReachable (dictCreate db t)
  | set_status {db : DictDB} (k : Nat) (s : String) :
      DictReachable db → DictReachable (dictTaskStatus db k s)
  | del {db : DictDB} (k : Nat) (c : Bool) :
      DictReachable db → DictReachable (dictDelete db k c)

/-! ## Helper lemmas about scoped row filters -/

/-- A filter with a unique satisfier in a duplicate-free list returns
exactly that element. -/
lemma filter_eq_singleton_of_unique {l : List Task} {p : Task → Bool} {t : Task}
    (hmem : t ∈ l) (hp : p t = true)
    (huniq : ∀ u ∈ l, p u = true → u = t) (hnd : l.Nodup) :
    l.filter p = [t] := by
  induction l with
  | nil => cases hmem
  | cons a l ih =>
    rw [List.nodup_cons] at hnd
    rcases List.mem_cons.mp hmem with heq | hmem'
    · subst heq
      rw [List.filter_cons_of_pos hp]
      have : l.filter p = [] := by
        apply List.filter_eq_nil_iff.mpr
        intro u hu hpu
        exact hnd.1 (huniq u (List.mem_cons_of_mem _ hu) hpu ▸ hu)
      rw [this]
    · have hpa : p a = false := by
        by_contra hpa
        have ha : a = t := huniq a (List.mem_cons_self a l) (by simpa using hpa)
        exact hnd.1 (ha ▸ hmem')
      rw [List.filter_cons_of_neg (by simp [hpa])]
      exact ih hmem' (fun u hu hpu => huniq u (List.mem_cons_of_mem _ hu) hpu) hnd.2

/-- In a store whose `id` column is duplicate-free, the rows matching an
existing row's id and owner are exactly that row. -/
lemma filter_matches_self {store : Store} {t : Task}
    (hnd : (store.map Task.id).Nodup) (hmem : t ∈ store) :
    store.filter (taskMatches t.id t.user_id) = [t] := by
  apply filter_eq_singleton_of_unique hmem (by simp [taskMatches])
    ?_ (List.Nodup.of_map _ hnd)
  intro u hu hpu
  simp only [taskMatches, Bool.and_eq_true, beq_iff_eq] at hpu
  exact List.inj_on_of_nodup_map hnd hu hmem hpu.1

/-! ## Theorems -/

/-- C9: `verify_password` returns true for the exact password whose hash
was produced by `get_password_hash` (under any salt), and false for every
other string. -/
theorem verify_password_correct (salt : Nat) (p q : String) (h : q ≠ p) :
    verify_password p (get_password_hash salt p) = true ∧
    verify_password q (get_password_hash salt p) = false := by
  have hd : q.data ≠ p.data := fun hc => h (String.ext hc)
  constructor
  · simp [verify_password, get_password_hash]
  · simp [verify_password, get_password_hash, bcryptDigest, hd]

/-- Witness for C9 at the concrete passwords `"secret1"` and `"secret2"`. -/
theorem verify_password_correct_witness :
    verify_password "secret1" (get_password_hash 0 "secret1") = true ∧
    verify_password "secret2" (get_password_hash 0 "secret1") = false :=
  verify_password_correct 0 "secret1" "secret2" (by decide)

/-- C3: `register` fails with `duplicateUsername` iff the username is
already present; on that failure the `users` relation is unchanged; and
after a successful registration, a second registration of the same
username observes `duplicateUsername`. -/
theorem register_duplicate_iff (users : List UserRow) (nextId nextId2 : Nat)
    (username ph1 ph2 : String) :
    ((register users nextId username ph1).fst = .duplicateUsername ↔
      users.any (fun u => u.username == username) = true) ∧
    ((register users nextId username ph1).fst = .duplicateUsername →
      (register users nextId username ph1).snd = users) ∧
    ((register users nextId username ph1).fst = .ok →
      (register (register users nextId username ph1).snd nextId2 username ph2).fst
        = .duplicateUsername) := by
  by_cases hdup : users.any (fun u => u.username == username) = true
  · refine ⟨?_, ?_, ?_⟩ <;> simp [register, hdup]
  · refine ⟨?_, ?_, ?_⟩ <;>
      simp [register, hdup, List.any_append]

/-- Witness for C3: registering `"alice"` into the empty relation and then
registering `"alice"` again. -/
theorem register_duplicate_iff_witness :
    ((register [] 1 "alice" "x").fst = .duplicateUsername ↔
      ([] : List UserRow).any (fun u => u.username == "alice") = true) ∧
    ((register [] 1 "alice" "x").fst = .duplicateUsername →
      (register [] 1 "alice" "x").snd = []) ∧
    ((register [] 1 "alice" "x").fst = .ok →
      (register (register [] 1 "alice" "x").snd 2 "alice" "y").fst
        = .duplicateUsername) :=
  register_duplicate_iff [] 1 2 "alice" "x" "y"

/-- C4: a token issued by `create_access_token` with the default TTL has
`exp = now + 15 * 60` seconds, and `jwtDecode` at any instant strictly past
that expiry fails with `expired` (not `malformed`, not success). -/
theorem access_token_expires (sub : String) (now t : Int)
    (h : now + ACCESS_TOKEN_EXPIRE_MINUTES * 60 < t) :
    (create_access_token (some sub) none now).payload.exp = now + 15 * 60 ∧
    jwtDecode (create_access_token (some sub) none now) t = .error .expired := by
  refine ⟨rfl, ?_⟩
  have h' : now + 900 < t := by norm_num [ACCESS_TOKEN_EXPIRE_MINUTES] at h; linarith
  simp [jwtDecode, create_access_token, ACCESS_TOKEN_EXPIRE_MINUTES, h']

/-- Witness for C4: a token issued at time 0 verified at 16 minutes
(960 seconds). -/
theorem access_token_expires_witness :
    (create_access_token (some "alice") none 0).payload.exp = 0 + 15 * 60 ∧
    jwtDecode (create_access_token (some "alice") none 0) 960 = .error .expired :=
  access_token_expires "alice" 0 960 (by decide)

/-- C2 is false as stated: task status is not drawn from one enum across
the three backends — `"done"` is a valid API status but invalid for both
CLI backends, and `"complete"` is valid for the CLI backends but not for
the API. -/
theorem backend_status_enums_differ :
    apiStatusOK "done" = true ∧ dictStatusOK "done" = false ∧
    dbStatusOK "done" = false ∧ dictStatusOK "complete" = true ∧
    apiStatusOK "complete" = false := by
  decide

/-- C2 (amended): the two CLI backends agree with each other on the status
enum `{complete, incomplete}`, but the API backend's enum `{done, pending}`
is disjoint from it, so the backends do not share one status enum or one
identical contract. -/
theorem cli_backends_share_enum_api_differs :
    (∀ s, dbStatusOK s = dictStatusOK s) ∧
    (∀ s, apiStatusOK s = true → dictStatusOK s = false) ∧
    apiStatusOK "done" = true ∧ dictStatusOK "complete" = true := by
  refine ⟨fun s => rfl, ?_, by decide, by decide⟩
  intro s hs
  simp only [apiStatusOK, Bool.or_eq_true, beq_iff_eq] at hs
  rcases hs with h | h <;> subst h <;> decide

/-- Witness for the amended C2 at the concrete status `"done"`. -/
theorem cli_backends_share_enum_api_differs_witness :
    dbStatusOK "done" = dictStatusOK "done" ∧ dictStatusOK "done" = false ∧
    apiStatusOK "done" = true :=
  ⟨cli_backends_share_enum_api_differs.1 "done",
   cli_backends_share_enum_api_differs.2.1 "done" (by decide),
   cli_backends_share_enum_api_differs.2.2.1⟩

/-! ## Sample data for witnesses -/

/-- A sample stored task owned by user 1. -/
def sampleTaskA : Task :=
  { id := 1, user_id := 1, name := "t", description := none, priority := 1,
    status := "pending", created_on := 0, last_modified := 0 }

/-- A sample update body. -/
def sampleBody : TaskUpdate :=
  { name := "n", description := "d", priority := 2, status := "done" }

/-- A sample creation input whose name carries surrounding whitespace. -/
def sampleCreate : TaskCreate :=
  { name := " Buy milk ", description := some "d", priority := 3,
    status := "pending" }

/-- C1: for a task owned by user `A`, any other user `B` gets `NotFound`
(`none`) from `get_task`, `update_task` and `delete_task` on that task's
id, and the store is left untouched — exactly the outcome a nonexistent id
produces. -/
theorem cross_user_task_opacity (store : Store) (t : Task) (A B : Nat)
    (body : TaskUpdate) (now : Int)
    (hnd : (store.map Task.id).Nodup) (hmem : t ∈ store)
    (howner : t.user_id = A) (hBA : B ≠ A) :
    get_task store B t.id = none ∧
    update_task store B t.id body now = (none, store) ∧
    delete_task store B t.id = (none, store) := by
  have hnil : store.filter (taskMatches t.id B) = [] := by
    apply List.filter_eq_nil_iff.mpr
    intro u hu hpu
    simp only [taskMatches, Bool.and_eq_true, beq_iff_eq] at hpu
    have hut : u = t := List.inj_on_of_nodup_map hnd hu hmem hpu.1
    exact hBA (howner ▸ hut ▸ hpu.2.symm)
  refine ⟨?_, ?_, ?_⟩
  · simp [get_task, hnil]
  · simp [update_task, hnil]
  · simp [delete_task, hnil]

/-- Witness for C1: a one-task store owned by user 1, accessed by user 2. -/
theorem cross_user_task_opacity_witness :
    get_task [sampleTaskA] 2 sampleTaskA.id = none ∧
    update_task [sampleTaskA] 2 sampleTaskA.id sampleBody 5 = (none, [sampleTaskA]) ∧
    delete_task [sampleTaskA] 2 sampleTaskA.id = (none, [sampleTaskA]) :=
  cross_user_task_opacity [sampleTaskA] sampleTaskA 1 2 sampleBody 5
    (by decide) (by decide) (by decide) (by decide)

/-- C6: creating a task and immediately fetching it by the fresh id (as the
same user) returns the created row, whose `created_on` equals its
`last_modified` and whose payload equals the input with the name
stripped. -/
theorem create_then_get_roundtrip (store : Store) (nextId uid : Nat)
    (input : TaskCreate) (now : Int)
    (_hvalid : input.valid = true)
    (hfresh : ∀ u ∈ store, u.id ≠ nextId) :
    get_task (create_task store nextId uid input now).2 uid nextId
      = some (create_task store nextId uid input now).1 ∧
    (create_task store nextId uid input now).1.created_on
      = (create_task store nextId uid input now).1.last_modified ∧
    (create_task store nextId uid input now).1.name = pyStrip input.name ∧
    (create_task store nextId uid input now).1.description = input.description ∧
    (create_task store nextId uid input now).1.priority = input.priority ∧
    (create_task store nextId uid input now).1.status = input.status := by
  refine ⟨?_, rfl, rfl, rfl, rfl, rfl⟩
  have hnil : store.filter (taskMatches nextId uid) = [] := by
    apply List.filter_eq_nil_iff.mpr
    intro u hu hpu
    simp only [taskMatches, Bool.and_eq_true, beq_iff_eq] at hpu
    exact hfresh u hu hpu.1
  simp [get_task, create_task, List.filter_append, hnil, taskMatches]

/-- Witness for C6: creating `sampleCreate` in the empty store as user 7. -/
theorem create_then_get_roundtrip_witness :
    get_task (create_task [] 1 7 sampleCreate 5).2 7 1
      = some (create_task [] 1 7 sampleCreate 5).1 ∧
    (create_task [] 1 7 sampleCreate 5).1.created_on
      = (create_task [] 1 7 sampleCreate 5).1.last_modified ∧
    (create_task [] 1 7 sampleCreate 5).1.name = pyStrip sampleCreate.name ∧
    (create_task [] 1 7 sampleCreate 5).1.description = sampleCreate.description ∧
    (create_task [] 1 7 sampleCreate 5).1.priority = sampleCreate.priority ∧
    (create_task [] 1 7 sampleCreate 5).1.status = sampleCreate.status :=
  create_then_get_roundtrip [] 1 7 sampleCreate 5 (by decide) (by decide)

/-- C7: a successful `update_task` on an owned task returns that task with
`last_modified` advanced to `now` (≥ its previous value under a monotone
clock), with `id`, `user_id` and `created_on` unchanged, and the successor
store is a pointwise map that leaves every row with a different id
untouched. -/
theorem update_task_frame (store : Store) (uid : Nat) (body : TaskUpdate)
    (now : Int) (t : Task)
    (hnd : (store.map Task.id).Nodup) (hmem : t ∈ store)
    (howner : t.user_id = uid) (hclock : t.last_modified ≤ now) :
    (update_task store uid t.id body now).1 = some (applyUpdate body now t) ∧
    t.last_modified ≤ (applyUpdate body now t).last_modified ∧
    (applyUpdate body now t).created_on = t.created_on ∧
    (applyUpdate body now t).user_id = t.user_id ∧
    (applyUpdate body now t).id = t.id ∧
    (update_task store uid t.id body now).2
      = store.map (fun u => if taskMatches t.id uid u then applyUpdate body now u else u) ∧
    (∀ u ∈ store, u.id ≠ t.id →
      (if taskMatches t.id uid u then applyUpdate body now u else u) = u) := by
  have hsingle : store.filter (taskMatches t.id uid) = [t] :=
    howner ▸ filter_matches_self hnd hmem
  have hpf : ∀ u, taskMatches t.id uid
      (if taskMatches t.id uid u then applyUpdate body now u else u)
        = taskMatches t.id uid u := by
    intro u
    by_cases hc : taskMatches t.id uid u = true
    · rw [if_pos hc]; rfl
    · rw [if_neg hc]
  have hrun : update_task store uid t.id body now
      = (((store.map fun u =>
            if taskMatches t.id uid u then applyUpdate body now u else u).filter
              (taskMatches t.id uid)).head?,
         store.map fun u =>
            if taskMatches t.id uid u then applyUpdate body now u else u) := by
    unfold update_task
    rw [hsingle]
    rfl
  have hhead : ((store.map fun u =>
      if taskMatches t.id uid u then applyUpdate body now u else u).filter
        (taskMatches t.id uid)).head? = some (applyUpdate body now t) := by
    rw [List.filter_map]
    have : (taskMatches t.id uid ∘ fun u =>
        if taskMatches t.id uid u then applyUpdate body now u else u)
          = taskMatches t.id uid := funext hpf
    rw [this, hsingle]
    simp [taskMatches, howner]
  refine ⟨?_, ?_, rfl, rfl, rfl, ?_, ?_⟩
  · rw [hrun]
    exact hhead
  · simpa [applyUpdate] using hclock
  · rw [hrun]
  · intro u _ hne
    have : taskMatches t.id uid u = false := by
      simp [taskMatches, hne]
    simp [this]

/-- Witness for C7: updating the sample task in its one-task store. -/
theorem update_task_frame_witness :
    (update_task [sampleTaskA] 1 sampleTaskA.id sampleBody 5).1
      = some (applyUpdate sampleBody 5 sampleTaskA) ∧
    sampleTaskA.last_modified ≤ (applyUpdate sampleBody 5 sampleTaskA).last_modified ∧
    (applyUpdate sampleBody 5 sampleTaskA).created_on = sampleTaskA.created_on ∧
    (applyUpdate sampleBody 5 sampleTaskA).user_id = sampleTaskA.user_id ∧
    (applyUpdate sampleBody 5 sampleTaskA).id = sampleTaskA.id ∧
    (update_task [sampleTaskA] 1 sampleTaskA.id sampleBody 5).2
      = [sampleTaskA].map (fun u =>
          if taskMatches sampleTaskA.id 1 u then applyUpdate sampleBody 5 u else u) ∧
    (∀ u ∈ [sampleTaskA], u.id ≠ sampleTaskA.id →
      (if taskMatches sampleTaskA.id 1 u then applyUpdate sampleBody 5 u else u) = u) :=
  update_task_frame [sampleTaskA] 1 sampleBody 5 sampleTaskA
    (by decide) (by decide) (by decide) (by decide)

/-- A sample two-task store for user 7, with distinct priorities. -/
def sampleStore : Store :=
  [{ id := 1, user_id := 7, name := "a", description := none, priority := 1,
     status := "pending", created_on := 0, last_modified := 0 },
   { id := 2, user_id := 7, name := "b", description := none, priority := 5,
     status := "pending", created_on := 0, last_modified := 0 }]

/-- C5 is false as stated for the `order` fallback: `get_tasks` with the
unrecognised order `"bogus"` differs from `order = "desc"` on a concrete
store — it behaves like `"asc"` instead. -/
theorem invalid_order_not_desc :
    get_tasks sampleStore 7 "priority" "bogus" none
      ≠ get_tasks sampleStore 7 "priority" "desc" none ∧
    get_tasks sampleStore 7 "priority" "bogus" none
      = get_tasks sampleStore 7 "priority" "asc" none := by
  decide

/-- C5 (amended): an unrecognised `sort_by` behaves exactly like
`"priority"`, an unrecognised `order` behaves exactly like `"asc"`
(ascending — not `"desc"`), and an unrecognised `status_filter` is ignored
(same result as no filter). -/
theorem get_tasks_fallbacks (store : Store) (uid : Nat)
    (sort_by order : String) (status : Option String) (s : String) :
    (allowedSortCols.contains sort_by = false →
      get_tasks store uid sort_by order status
        = get_tasks store uid "priority" order status) ∧
    (pyLower order ≠ "desc" →
      get_tasks store uid sort_by order status
        = get_tasks store uid sort_by "asc" status) ∧
    (s ≠ "done" → s ≠ "pending" →
      get_tasks store uid sort_by order (some s)
        = get_tasks store uid sort_by order none) := by
  refine ⟨?_, ?_, ?_⟩
  · intro h
    have h' : sort_by ∉ allowedSortCols := by simpa using h
    simp [get_tasks, h']
  · intro h
    have hlow : (pyLower order == "desc") = false := beq_eq_false_iff_ne.mpr h
    have hasc : (pyLower "asc" == "desc") = false := by decide
    simp [get_tasks, hlow, hasc]
  · intro h1 h2
    have hb1 : (s == "done") = false := beq_eq_false_iff_ne.mpr h1
    have hb2 : (s == "pending") = false := beq_eq_false_iff_ne.mpr h2
    simp [get_tasks, hb1, hb2]

/-- Witness for the amended C5: `sort_by = "name"`, `order = "bogus"`,
`status_filter = "finished"` on the sample store. -/
theorem get_tasks_fallbacks_witness :
    get_tasks sampleStore 7 "name" "bogus" none
      = get_tasks sampleStore 7 "priority" "bogus" none ∧
    get_tasks sampleStore 7 "name" "bogus" none
      = get_tasks sampleStore 7 "name" "asc" none ∧
    get_tasks sampleStore 7 "name" "bogus" (some "finished")
      = get_tasks sampleStore 7 "name" "bogus" none :=
  ⟨(get_tasks_fallbacks sampleStore 7 "name" "bogus" none "finished").1 (by decide),
   (get_tasks_fallbacks sampleStore 7 "name" "bogus" none "finished").2.1 (by decide),
   (get_tasks_fallbacks sampleStore 7 "name" "bogus" none "finished").2.2
     (by decide) (by decide)⟩

/-- C8: the code evaluated at the failing input `name = " "` — the
pydantic validation accepts it (`min_length=1` is checked on the raw name,
before trimming), yet the stored row's name is empty, so a task with an
empty name is stored. -/
theorem whitespace_name_stored_empty :
    (TaskCreate.valid
      { name := " ", description := none, priority := 1, status := "pending" }) = true ∧
    (create_task [] 1 7
      { name := " ", description := none, priority := 1, status := "pending" } 0).1.name
        = "" ∧
    ((create_task [] 1 7
      { name := " ", description := none, priority := 1, status := "pending" } 0).2.any
        fun t => t.name == "") = true := by
  decide

/-! ## Lemmas about the dictionary backend's key discipline -/

/-- Every key of the dictionary is bounded by `dictMaxKey`. -/
lemma le_dictMaxKey {db : DictDB} {k : Nat} (h : k ∈ db.map Prod.fst) :
    k ≤ dictMaxKey db := by
  induction db with
  | nil => cases h
  | cons kv db ih =>
    rcases List.mem_cons.mp h with heq | hmem
    · exact heq ▸ le_max_left _ _
    · exact le_trans (ih hmem) (le_max_right _ _)

/-- The id chosen by `dictCreate` is not a key of the dictionary. -/
lemma dictCreate_key_fresh (db : DictDB) :
    (if db.isEmpty then 1 else dictMaxKey db + 1) ∉ db.map Prod.fst := by
  cases db with
  | nil => simp
  | cons kv db =>
    intro h
    simp only [List.isEmpty_cons, if_neg] at h
    have hle : dictMaxKey (kv :: db) + 1 ≤ dictMaxKey (kv :: db) :=
      le_dictMaxKey (by simpa using h)
    omega

/-- `dictCreate` appends a binding at the fresh key. -/
lemma dictCreate_eq_append (db : DictDB) (t : DTask) :
    dictCreate db t = db ++ [(if db.isEmpty then 1 else dictMaxKey db + 1, t)] := by
  unfold dictCreate dictInsert
  have h := dictCreate_key_fresh db
  have hany : (db.any fun kv => kv.fst == (if db.isEmpty then 1 else dictMaxKey db + 1))
      = false := by
    rw [List.any_eq_false]
    intro kv hkv hc
    exact h (List.mem_map.mpr ⟨kv, hkv, by simpa using hc⟩)
  dsimp only
  rw [hany]
  rfl

/-- `dictTaskStatus` never changes the key sequence. -/
lemma dictTaskStatus_keys (db : DictDB) (k : Nat) (s : String) :
    (dictTaskStatus db k s).map Prod.fst = db.map Prod.fst := by
  unfold dictTaskStatus
  split
  · rfl
  · split
    · rfl
    · split
      · rfl
      · rw [List.map_map]
        apply List.map_congr_left
        intro kv _
        by_cases hc : kv.fst = k
        · simp [hc]
        · simp [Function.comp, hc]

/-- Ids remain pairwise distinct in every reachable dictionary state. -/
lemma dictReachable_keys_nodup {db : DictDB} (h : DictReachable db) :
    (db.map Prod.fst).Nodup := by
  induction h with
  | empty => simp
  | create t _ ih =>
    rename_i db _
    rw [dictCreate_eq_append, List.map_append, List.nodup_append]
    refine ⟨ih, by simp, ?_⟩
    intro a ha hb
    simp only [List.map_cons, List.map_nil, List.mem_singleton] at hb
    exact (hb ▸ dictCreate_key_fresh db) ha
  | set_status k s _ ih =>
    rename_i db _
    rw [dictTaskStatus_keys]
    exact ih
  | del k c _ ih =>
    rename_i db _
    unfold dictDelete
    split
    · exact ih
    · split
      · exact List.Nodup.sublist (List.Sublist.map _ (List.filter_sublist _)) ih
      · exact ih

/-- A sample dictionary-backend task. -/
def sampleDTask : DTask :=
  { name := "a", description := "", priority := 1, status := "incomplete" }

/-- C10 is false as stated: in the reachable state with ids `{1, 3}`
(create three tasks, delete id 2), deleting the task with the largest id
(3) and then creating assigns id 2, not 3 — the very next create does not
reuse the deleted largest id. -/
theorem dict_delete_create_no_reuse :
    (dictMaxKey (dictDelete
        (dictCreate (dictCreate (dictCreate [] sampleDTask) sampleDTask) sampleDTask)
        2 true) = 3) ∧
    ((dictCreate (dictDelete (dictDelete
        (dictCreate (dictCreate (dictCreate [] sampleDTask) sampleDTask) sampleDTask)
        2 true) 3 true) sampleDTask).map Prod.fst = [1, 2]) ∧
    (((dictCreate (dictDelete (dictDelete
        (dictCreate (dictCreate (dictCreate [] sampleDTask) sampleDTask) sampleDTask)
        2 true) 3 true) sampleDTask).any fun kv => kv.fst == 3) = false) := by
  decide

/-- C10 (amended): `dictCreate` assigns id `dictMaxKey + 1` (id 1 on the
empty map) by appending a fresh binding; ids stay pairwise distinct in
every reachable state; and an id can be reused after a delete-then-create
(ids `[1,2]`, delete 2, create gives id 2 again), though the next create
generally assigns one more than the remaining maximum rather than the
deleted id. -/
theorem dict_create_ids (db : DictDB) (t : DTask) (h : DictReachable db) :
    (db.map Prod.fst).Nodup ∧
    dictCreate db t = db ++ [(if db.isEmpty then 1 else dictMaxKey db + 1, t)] ∧
    ((dictCreate db t).map Prod.fst).Nodup ∧
    (dictCreate (dictDelete (dictCreate (dictCreate [] t) t) 2 true) t).map Prod.fst
      = [1, 2] := by
  refine ⟨dictReachable_keys_nodup h, dictCreate_eq_append db t,
    dictReachable_keys_nodup (.create t h), ?_⟩
  rfl

/-- Witness for the amended C10 at the empty (reachable) dictionary. -/
theorem dict_create_ids_witness :
    (([] : DictDB).map Prod.fst).Nodup ∧
    dictCreate [] sampleDTask
      = [] ++ [(if ([] : DictDB).isEmpty then 1 else dictMaxKey [] + 1, sampleDTask)] ∧
    ((dictCreate [] sampleDTask).map Prod.fst).Nodup ∧
    (dictCreate (dictDelete (dictCreate (dictCreate [] sampleDTask) sampleDTask) 2 true)
        sampleDTask).map Prod.fst = [1, 2] :=
  dict_create_ids [] sampleDTask DictReachable.empty

end TodoBackend
